import Mathlib

/-!
Shallow embedding of `src/shared/python/hamming_client.py` (class `HammingClient`)
from the HammingHQ/api-demo-snippets repository, together with theorems settling
the frozen claims about the run-completion poller, the retrying request
executor, client construction, and `list_test_runs`.

Modelling conventions:
- A JSON-object response payload (a "status snapshot") is modelled as an
  association list `List (String × String)`; `dict.get(key, default)` is
  `dictGet`.
- The remote service is an oracle: `server : Nat → Snapshot` gives the snapshot
  returned by the status endpoint at poll tick `k` (ticks are numbered from 0).
- Time is discrete and requests are instantaneous (as the claims assume): the
  poll loop `while time.time() - start_time < timeout` sleeps exactly 5 seconds
  per non-terminal tick, so the elapsed time at the check preceding tick `k` is
  `5 * k` seconds.  The guard `5 * k < timeout` holds exactly for the first
  `numTicks timeout` ticks (lemma `loop_guard_iff`), so the loop is embedded
  structurally on the number of remaining ticks.
- The embedding is instrumented with the observable side effects the claims
  talk about: the list of endpoints requested and the list of sleeps performed.
-/

/-- A JSON-object payload, e.g. the status snapshot returned by a status
endpoint, as an association list of string fields. -/
abbrev Snapshot := List (String × String)

/-- Python `d.get(key, default)` on a `Snapshot`. -/
def dictGet (d : Snapshot) (key default : String) : String :=
  match d.find? (fun p => p.1 == key) with
  | some p => p.2
  | none => default

/-- The recognized terminal statuses, from
`if status in ["completed", "failed", "cancelled"]` in `wait_for_completion`. -/
def terminalStatuses : List String := ["completed", "failed", "cancelled"]

/-- The endpoint queried on each poll tick: `wait_for_completion` calls
`get_outbound_test_run` when `call_type == "outbound"` and
`get_inbound_test_run` otherwise. -/
def statusEndpoint (call_type run_id : String) : String :=
  if call_type == "outbound" then "/outbound/test-runs/" ++ run_id
  else "/inbound/test-runs/" ++ run_id

/-- The message of the `TimeoutError` raised by `wait_for_completion`:
`f"Test run {run_id} did not complete within {timeout} seconds"`. -/
def timeoutMessage (run_id : String) (timeout : Int) : String :=
  "Test run " ++ run_id ++ " did not complete within " ++ toString timeout ++ " seconds"

/-- Outcome of `wait_for_completion`: either the full status snapshot returned
on observing a terminal status, or the `TimeoutError` (a failure kind distinct
from the transport-error kind `ReqError`), carrying the values interpolated
into its message: the run identifier and the `timeout` argument. -/
inductive PollOutcome where
  | done (snapshot : Snapshot)
  | timedOut (run_id : String) (timeout : Int)
deriving Repr, DecidableEq

/-- Instrumented result of a `wait_for_completion` run: its outcome, the
endpoints of the status requests it made (in order), and the sleeps it
performed (in seconds, one `time.sleep(5)` per non-terminal tick). -/
structure WfcResult where
  outcome : PollOutcome
  requests : List String
  sleeps : List Nat
deriving Repr, DecidableEq

/-- The number of iterations of `while time.time() - start_time < timeout`
under the instantaneous-request model: the number of ticks `k` with
`5 * k < timeout`, which is `⌈timeout / 5⌉` for positive `timeout` and `0`
otherwise.  `loop_guard_iff` certifies this. -/
def numTicks (timeout : Int) : Nat := (timeout.toNat + 4) / 5

/-- The body of the polling loop of `HammingClient.wait_for_completion`,
embedded structurally on the number of remaining ticks (`ticksLeft`), with `k`
the current tick index.  Per tick: request the status endpoint, extract
`run_status.get("status", "unknown")`, return the full snapshot if the status
is terminal, otherwise `time.sleep(5)` and continue; when the guard fails,
raise the `TimeoutError`. -/
def wfcAux (server : Nat → Snapshot) (run_id call_type : String) (timeout : Int)
    (k ticksLeft : Nat) : WfcResult :=
  match ticksLeft with
  | 0 => { outcome := PollOutcome.timedOut run_id timeout, requests := [], sleeps := [] }
  | t + 1 =>
    let run_status := server k
    let status := dictGet run_status "status" "unknown"
    if status ∈ terminalStatuses then
      { outcome := PollOutcome.done run_status,
        requests := [statusEndpoint call_type run_id],
        sleeps := [] }
    else
      let rest := wfcAux server run_id call_type timeout (k + 1) t
      { outcome := rest.outcome,
        requests := statusEndpoint call_type run_id :: rest.requests,
        sleeps := 5 :: rest.sleeps }

/-- Embeds `HammingClient.wait_for_completion(run_id, call_type, timeout)` against the
status oracle `server`, starting at tick 0. -/
def wait_for_completion (server : Nat → Snapshot) (run_id call_type : String)
    (timeout : Int) : WfcResult :=
  wfcAux server run_id call_type timeout 0 (numTicks timeout)

/-- A transport/remote failure of one HTTP attempt
(`requests.exceptions.RequestException`), carrying its message. -/
structure ReqError where
  msg : String
deriving Repr, DecidableEq

/-- Instrumented result of `HammingClient._make_request`: the value returned or
the error raised, the backoff sleeps performed (in seconds, in order), and the
number of HTTP attempts made. -/
structure MakeRequestResult where
  result : Except ReqError Snapshot
  sleeps : List Nat
  attempts : Nat
deriving Repr

/-- The body of the retry loop of `HammingClient._make_request`, embedded
structurally on the number of retries still allowed.  `attemptResult i` is the
outcome of HTTP attempt number `i` (0-based); the source loop
`for attempt in range(self.max_retries + 1)` with retry condition
`attempt < self.max_retries` corresponds to `retriesLeft = max_retries -
attempt`: on failure with retries left, sleep `2 ** attempt` seconds and try
again; on failure with none left, re-raise the failure. -/
def makeRequestAux (attemptResult : Nat → Except ReqError Snapshot)
    (attempt retriesLeft : Nat) : MakeRequestResult :=
  match attemptResult attempt with
  | Except.ok j => { result := Except.ok j, sleeps := [], attempts := 1 }
  | Except.error e =>
    match retriesLeft with
    | 0 => { result := Except.error e, sleeps := [], attempts := 1 }
    | r + 1 =>
      let rest := makeRequestAux attemptResult (attempt + 1) r
      { result := rest.result,
        sleeps := 2 ^ attempt :: rest.sleeps,
        attempts := rest.attempts + 1 }

/-- Embeds `HammingClient._make_request` with the configured `max_retries`, starting
at attempt 0. -/
def make_request (attemptResult : Nat → Except ReqError Snapshot)
    (max_retries : Nat) : MakeRequestResult :=
  makeRequestAux attemptResult 0 max_retries

/-- Python truthiness of an optional string: `None` and the empty string are falsy. -/
def pyTruthy (s : Option String) : Bool :=
  match s with
  | none => false
  | some v => v != ""

/-- Python `a or b` on optional strings (used for `api_key or os.getenv(...)`
and `base_url or os.getenv(...)`). -/
def pyOr (a b : Option String) : Option String :=
  if pyTruthy a then a else b

/-- The message of the `ValueError` raised by `HammingClient.__init__` when no
API key is available. -/
def apiKeyRequiredMsg : String :=
  "API key is required. Set HAMMING_API_KEY environment variable or pass api_key parameter"

/-- The configuration-error kind raised at client construction (`ValueError`),
distinct from the transport-error kind `ReqError`. -/
inductive ConfigError where
  | missingApiKey (msg : String)
deriving Repr, DecidableEq

/-- The state a successfully constructed `HammingClient` holds (the fields the
claims depend on; the remaining `__init__` assignments — session headers and
the timeout / max-retries / debug configuration — are local computations with
no network effect and are set only after the API-key check passes). -/
structure Client where
  api_key : String
  base_url : String
deriving Repr, DecidableEq

/-- Instrumented result of `HammingClient.__init__`: the constructed client or
the raised configuration error, plus the list of endpoints requested during
construction — empty, because the `__init__` body performs no HTTP call. -/
structure InitResult where
  result : Except ConfigError Client
  requests : List String
deriving Repr

/-- Embeds `HammingClient.__init__(api_key, base_url)` with environment values
`envApiKey = os.getenv("HAMMING_API_KEY")` and
`envBaseUrl = os.getenv("HAMMING_API_URL")` (the latter defaulting to the
production URL): resolve `api_key or env`, resolve the base URL, then raise
`ValueError` if the resolved key is falsy. -/
def hammingInit (api_key base_url envApiKey envBaseUrl : Option String) : InitResult :=
  let key := pyOr api_key envApiKey
  let base := pyOr base_url (some (envBaseUrl.getD "https://app.hamming.ai/api/v1"))
  if pyTruthy key then
    { result := Except.ok { api_key := key.getD "", base_url := base.getD "" },
      requests := [] }
  else
    { result := Except.error (ConfigError.missingApiKey apiKeyRequiredMsg),
      requests := [] }

/-- One logical HTTP request as handed to `_make_request`: method, endpoint,
and optional JSON body. -/
structure RequestSpec where
  method : String
  endpoint : String
  body : Option Snapshot
deriving Repr, DecidableEq

/-- The request built and sent by `HammingClient.list_test_runs(call_type,
limit)`: it builds `params = dict with key limit` and `endpoint =
the f-string /{call_type}/test-runs`, then calls `self._make_request("GET", endpoint)` —
without passing `params`, so the request carries no body and no parameters. -/
def list_test_runs (call_type : String) (limit : Int) : RequestSpec :=
  let params := [("limit", limit)]
  { method := "GET", endpoint := "/" ++ call_type ++ "/test-runs", body := none }

/-- Status oracle that reports `completed` at every tick. -/
def srvCompleted : Nat → Snapshot := fun _ => [("status", "completed")]

/-- Status oracle that reports the non-terminal `pending` at every tick. -/
def srvPending : Nat → Snapshot := fun _ => [("status", "pending")]

/-- Status oracle whose snapshots lack a `status` field entirely. -/
def srvNoStatus : Nat → Snapshot := fun _ => [("progress", "50")]

/-- Status oracle that reports `running` for the first two ticks and
`completed` from tick 2 on. -/
def srvLater : Nat → Snapshot :=
  fun k => if k < 2 then [("status", "running")] else [("status", "completed")]

/-- Attempt oracle on which every HTTP attempt fails. -/
def oracleFail : Nat → Except ReqError Snapshot :=
  fun i => Except.error { msg := "HTTP 500 on attempt " ++ toString i }

/-- The loop guard `time.time() - start_time < timeout` at tick `k` (elapsed
time `5 * k`) holds exactly when `k < numTicks timeout`: the structural
embedding runs the same ticks as the time-based source loop. -/
theorem loop_guard_iff (timeout : Int) (k : Nat) :
    (5 * (k : Int) < timeout) ↔ k < numTicks timeout := by
  unfold numTicks
  omega

/-- If every tick the loop can reach is non-terminal, the loop runs all its
ticks, requests the status endpoint once per tick, sleeps 5 seconds per tick,
and ends in the `TimeoutError`. -/
theorem wfcAux_all_nonterminal (server : Nat → Snapshot) (run_id call_type : String)
    (timeout : Int) :
    ∀ t k,
    (∀ j, j < t → dictGet (server (k + j)) "status" "unknown" ∉ terminalStatuses) →
    wfcAux server run_id call_type timeout k t =
      { outcome := PollOutcome.timedOut run_id timeout,
        requests := List.replicate t (statusEndpoint call_type run_id),
        sleeps := List.replicate t 5 } := by
  intro t
  induction t with
  | zero =>
    intro k _
    rfl
  | succ t ih =>
    intro k h
    have h0 : dictGet (server k) "status" "unknown" ∉ terminalStatuses := by
      have h0 := h 0 t.succ_pos
      rwa [Nat.add_zero] at h0
    have hrest := ih (k + 1) (fun j hj => by
      have hh := h (j + 1) (Nat.succ_lt_succ hj)
      rwa [show k + (j + 1) = k + 1 + j by omega] at hh)
    simp only [wfcAux, if_neg h0, hrest, List.replicate_succ]

/-- If tick `i` is the first terminal tick and the loop reaches it (`i < t`),
the loop returns the full snapshot of tick `i`, having made exactly `i + 1`
status requests and `i` sleeps. -/
theorem wfcAux_first_terminal (server : Nat → Snapshot) (run_id call_type : String)
    (timeout : Int) :
    ∀ i t k, i < t →
    (∀ j, j < i → dictGet (server (k + j)) "status" "unknown" ∉ terminalStatuses) →
    dictGet (server (k + i)) "status" "unknown" ∈ terminalStatuses →
    wfcAux server run_id call_type timeout k t =
      { outcome := PollOutcome.done (server (k + i)),
        requests := List.replicate (i + 1) (statusEndpoint call_type run_id),
        sleeps := List.replicate i 5 } := by
  intro i
  induction i with
  | zero =>
    intro t k ht _ hterm
    match t, ht with
    | t + 1, _ =>
      rw [Nat.add_zero] at hterm
      simp only [wfcAux, if_pos hterm]
      simp [List.replicate_succ]
  | succ i ih =>
    intro t k ht hprev hterm
    match t, ht with
    | t + 1, ht =>
      have h0 : dictGet (server k) "status" "unknown" ∉ terminalStatuses := by
        have h0 := hprev 0 i.succ_pos
        rwa [Nat.add_zero] at h0
      have hrest := ih t (k + 1) (Nat.lt_of_succ_lt_succ ht)
        (fun j hj => by
          have hh := hprev (j + 1) (Nat.succ_lt_succ hj)
          rwa [show k + (j + 1) = k + 1 + j by omega] at hh)
        (by rwa [show k + 1 + i = k + (i + 1) by omega])
      simp only [wfcAux, if_neg h0, hrest, List.replicate_succ]
      rw [show k + 1 + i = k + (i + 1) by omega]

/-- The loop makes at most one status request per tick. -/
theorem wfcAux_length_le (server : Nat → Snapshot) (run_id call_type : String)
    (timeout : Int) :
    ∀ t k, (wfcAux server run_id call_type timeout k t).requests.length ≤ t := by
  intro t
  induction t with
  | zero =>
    intro k
    exact Nat.le_refl 0
  | succ t ih =>
    intro k
    simp only [wfcAux]
    split
    · simp
    · simpa using Nat.succ_le_succ (ih (k + 1))

/-- The `TimeoutError` outcome always carries the `run_id` and `timeout`
arguments of the poller itself. -/
theorem wfcAux_timedOut_payload (server : Nat → Snapshot) (run_id call_type : String)
    (timeout : Int) :
    ∀ t k r tv,
    (wfcAux server run_id call_type timeout k t).outcome = PollOutcome.timedOut r tv →
    r = run_id ∧ tv = timeout := by
  intro t
  induction t with
  | zero =>
    intro k r tv h
    injection h with h1 h2
    exact ⟨h1.symm, h2.symm⟩
  | succ t ih =>
    intro k r tv h
    simp only [wfcAux] at h
    split at h
    · exact absurd h (by simp)
    · exact ih (k + 1) r tv h

/-- A `done` outcome always carries a snapshot whose extracted status is
terminal. -/
theorem wfcAux_done_terminal (server : Nat → Snapshot) (run_id call_type : String)
    (timeout : Int) :
    ∀ t k snap,
    (wfcAux server run_id call_type timeout k t).outcome = PollOutcome.done snap →
    dictGet snap "status" "unknown" ∈ terminalStatuses := by
  intro t
  induction t with
  | zero =>
    intro k snap h
    exact absurd h (by simp [wfcAux])
  | succ t ih =>
    intro k snap h
    simp only [wfcAux] at h
    split at h
    · injection h with h1
      subst h1
      assumption
    · exact ih (k + 1) snap h

/-- Every status request the loop makes goes to the single endpoint selected
by `call_type`. -/
theorem wfcAux_requests_endpoint (server : Nat → Snapshot) (run_id call_type : String)
    (timeout : Int) :
    ∀ t k e, e ∈ (wfcAux server run_id call_type timeout k t).requests →
    e = statusEndpoint call_type run_id := by
  intro t
  induction t with
  | zero =>
    intro k e h
    exact absurd h (by simp [wfcAux])
  | succ t ih =>
    intro k e h
    simp only [wfcAux] at h
    split at h
    · simpa using h
    · rcases List.mem_cons.mp h with h | h
      · exact h
      · exact ih (k + 1) e h

/-- On an oracle on which every attempt fails, the retry loop starting at
attempt `attempt` with `r` retries left makes `r + 1` attempts, sleeps
`2 ^ attempt, 2 ^ (attempt + 1), ...` between them, and raises the failure of
the last attempt. -/
theorem makeRequestAux_all_fail (attemptResult : Nat → Except ReqError Snapshot)
    (hFail : ∀ i, (attemptResult i).isOk = false) :
    ∀ r attempt,
    makeRequestAux attemptResult attempt r =
      { result := attemptResult (attempt + r),
        sleeps := (List.range' attempt r).map (fun a => 2 ^ a),
        attempts := r + 1 } := by
  intro r
  induction r with
  | zero =>
    intro attempt
    cases hoa : attemptResult attempt with
    | ok j => exact absurd (hFail attempt) (by simp [hoa, Except.isOk, Except.toBool])
    | error e =>
      simp only [makeRequestAux, hoa, Nat.add_zero]
      rfl
  | succ r ih =>
    intro attempt
    cases hoa : attemptResult attempt with
    | ok j => exact absurd (hFail attempt) (by simp [hoa, Except.isOk, Except.toBool])
    | error e =>
      simp only [makeRequestAux, hoa, ih (attempt + 1)]
      rw [show attempt + 1 + r = attempt + (r + 1) by omega, List.range'_succ]
      rfl

/-- C1: for every status snapshot whose status field is in the recognized
terminal set, the poller returns that full status snapshot on the first poll
observing it (tick `k`, the earliest terminal tick the loop reaches), making
no further status requests: exactly `k + 1` requests in total. -/
theorem wfc_returns_first_terminal (server : Nat → Snapshot) (run_id call_type : String)
    (timeout : Int) (k : Nat)
    (hk : 5 * (k : Int) < timeout)
    (hprev : ∀ j, j < k → dictGet (server j) "status" "unknown" ∉ terminalStatuses)
    (hterm : dictGet (server k) "status" "unknown" ∈ terminalStatuses) :
    (wait_for_completion server run_id call_type timeout).outcome
        = PollOutcome.done (server k)
    ∧ (wait_for_completion server run_id call_type timeout).requests.length = k + 1 := by
  have hkt : k < numTicks timeout := (loop_guard_iff timeout k).mp hk
  have h := wfcAux_first_terminal server run_id call_type timeout k (numTicks timeout) 0 hkt
    (fun j hj => by simpa using hprev j hj)
    (by simpa using hterm)
  unfold wait_for_completion
  rw [h]
  simp

/-- Witness for C1: a run that is `completed` at tick 0 is returned on the
first poll, after exactly one status request. -/
theorem wfc_returns_first_terminal_witness :
    (wait_for_completion srvCompleted "run-1" "outbound" 300).outcome
        = PollOutcome.done [("status", "completed")]
    ∧ (wait_for_completion srvCompleted "run-1" "outbound" 300).requests.length = 0 + 1 :=
  wfc_returns_first_terminal srvCompleted "run-1" "outbound" 300 0
    (by decide) (fun j hj => absurd hj (Nat.not_lt_zero j)) (by decide)

/-- C2: the poller never returns normally carrying a non-terminal status (any
`done` outcome has a terminal extracted status), and when every tick the
deadline admits is non-terminal it keeps polling through all of them and ends
in the `TimeoutError`. -/
theorem wfc_nonterminal_keeps_polling (server : Nat → Snapshot) (run_id call_type : String)
    (timeout : Int) :
    (∀ snap,
      (wait_for_completion server run_id call_type timeout).outcome = PollOutcome.done snap →
      dictGet snap "status" "unknown" ∈ terminalStatuses)
    ∧ ((∀ j, j < numTicks timeout →
          dictGet (server j) "status" "unknown" ∉ terminalStatuses) →
      (wait_for_completion server run_id call_type timeout).outcome
          = PollOutcome.timedOut run_id timeout
      ∧ (wait_for_completion server run_id call_type timeout).requests.length
          = numTicks timeout) := by
  constructor
  · intro snap h
    exact wfcAux_done_terminal server run_id call_type timeout (numTicks timeout) 0 snap h
  · intro hall
    have h := wfcAux_all_nonterminal server run_id call_type timeout (numTicks timeout) 0
      (fun j hj => by simpa using hall j hj)
    unfold wait_for_completion
    rw [h]
    simp

/-- Witness for C2: a run that stays `pending` is polled on all 3 ticks a
12-second deadline admits and ends in the `TimeoutError`. -/
theorem wfc_nonterminal_keeps_polling_witness :
    (wait_for_completion srvPending "run-2" "outbound" 12).outcome
        = PollOutcome.timedOut "run-2" 12
    ∧ (wait_for_completion srvPending "run-2" "outbound" 12).requests.length
        = numTicks 12 :=
  (wfc_nonterminal_keeps_polling srvPending "run-2" "outbound" 12).2
    (fun j hj =>
      (by decide : dictGet [("status", "pending")] "status" "unknown" ∉ terminalStatuses))

/-- C3: on a request failing at every attempt, `_make_request` makes
`max_retries + 1` attempts (the initial one plus exactly `max_retries`
retries), sleeps the strictly increasing backoffs `2 ^ 0, 2 ^ 1, ...,
2 ^ (max_retries - 1)` seconds between consecutive attempts, and raises
exactly the failure of the final attempt. -/
theorem make_request_retry_schedule (attemptResult : Nat → Except ReqError Snapshot)
    (max_retries : Nat) (hFail : ∀ i, (attemptResult i).isOk = false) :
    (make_request attemptResult max_retries).attempts = max_retries + 1
    ∧ (make_request attemptResult max_retries).sleeps
        = (List.range max_retries).map (fun a => 2 ^ a)
    ∧ (make_request attemptResult max_retries).result = attemptResult max_retries
    ∧ (make_request attemptResult max_retries).sleeps.Pairwise (fun a b => a < b) := by
  have h := makeRequestAux_all_fail attemptResult hFail max_retries 0
  unfold make_request
  rw [h]
  have hr : (List.range' 0 max_retries).map (fun a => (2 : Nat) ^ a)
      = (List.range max_retries).map (fun a => 2 ^ a) := by
    rw [List.range_eq_range']
  refine ⟨rfl, hr, by rw [Nat.zero_add], ?_⟩
  rw [hr]
  refine List.Pairwise.map (fun a => 2 ^ a) (fun a b hab => ?_) (List.pairwise_lt_range max_retries)
  exact Nat.pow_lt_pow_right Nat.one_lt_two hab

/-- Witness for C3: with `max_retries = 3` and every attempt failing, 4
attempts are made and the sleeps are 1s, 2s, 4s. -/
theorem make_request_retry_schedule_witness :
    (make_request oracleFail 3).attempts = 3 + 1
    ∧ (make_request oracleFail 3).sleeps = [1, 2, 4] := by
  have h := make_request_retry_schedule oracleFail 3 (fun i => rfl)
  exact ⟨h.1, by rw [h.2.1]; decide⟩

/-- C4 counterexample: with `timeout = 3` and a run that stays `pending`, the
poller raises the `TimeoutError` carrying the value 3 (its `timeout`
argument), yet the time actually elapsed at that point — the 5-second sleep of
the single tick performed, requests being instantaneous — is 5 seconds, so the
value the message carries is not the elapsed time. -/
theorem wfc_timeout_carries_param_not_elapsed :
    (wait_for_completion srvPending "run-3" "outbound" 3).outcome
        = PollOutcome.timedOut "run-3" 3
    ∧ List.sum (wait_for_completion srvPending "run-3" "outbound" 3).sleeps = 5
    ∧ (3 : Int) ≠ 5 := by
  decide

/-- C4 (amended): when the polling deadline elapses without a terminal status,
the poller fails with the distinct timeout failure kind
(`PollOutcome.timedOut`, never equal to a `done` outcome) carrying the run
identifier and the configured maximum wait duration (its `timeout` argument),
and the poller itself does not retry this failure. -/
theorem wfc_timeout_payload (server : Nat → Snapshot) (run_id call_type : String)
    (timeout : Int) (r : String) (tv : Int)
    (h : (wait_for_completion server run_id call_type timeout).outcome
        = PollOutcome.timedOut r tv) :
    r = run_id ∧ tv = timeout
    ∧ ∀ snap, PollOutcome.timedOut r tv ≠ PollOutcome.done snap := by
  obtain ⟨h1, h2⟩ :=
    wfcAux_timedOut_payload server run_id call_type timeout (numTicks timeout) 0 r tv h
  exact ⟨h1, h2, fun snap hc => PollOutcome.noConfusion hc⟩

/-- Witness for C4 (amended): a `pending` run against a 7-second deadline
times out with exactly its own run identifier and timeout argument in the
failure. -/
theorem wfc_timeout_payload_witness :
    "run-4" = "run-4" ∧ (7 : Int) = 7
    ∧ ∀ snap, PollOutcome.timedOut "run-4" (7 : Int) ≠ PollOutcome.done snap :=
  wfc_timeout_payload srvPending "run-4" "outbound" 7 "run-4" 7 (by decide)

/-- C5: if the API key is neither passed as a parameter nor present in the
environment, client construction fails with the configuration error (a kind
distinct from the transport error) and performs no network request. -/
theorem init_missing_key_fails (base_url envBaseUrl : Option String) :
    (hammingInit none base_url none envBaseUrl).result
        = Except.error (ConfigError.missingApiKey apiKeyRequiredMsg)
    ∧ (hammingInit none base_url none envBaseUrl).requests = [] :=
  ⟨rfl, rfl⟩

/-- C6: the poller performs at most `⌈timeout / 5⌉ + 1` status requests before
timing out (`numTicks timeout = ⌈timeout / 5⌉` for positive `timeout`, and the
poll interval is 5 seconds): the claimed `ceil(D / I) + 1` bound holds. -/
theorem wfc_request_count_bound (server : Nat → Snapshot) (run_id call_type : String)
    (timeout : Int) :
    (wait_for_completion server run_id call_type timeout).requests.length
      ≤ numTicks timeout + 1 := by
  have h := wfcAux_length_le server run_id call_type timeout (numTicks timeout) 0
  exact le_trans h (Nat.le_succ (numTicks timeout))

/-- C7: the status field is extracted defensively: on a snapshot lacking a
`status` field the extraction yields the default `unknown`, which is not
terminal (so the poll continues), and the poller never produces anything other
than a `done` snapshot or its own `TimeoutError` — no error is raised on such
a snapshot. -/
theorem status_default_when_absent (snap : Snapshot)
    (h : snap.find? (fun p => p.1 == "status") = none) :
    dictGet snap "status" "unknown" = "unknown"
    ∧ dictGet snap "status" "unknown" ∉ terminalStatuses
    ∧ ∀ (server : Nat → Snapshot) (run_id call_type : String) (timeout : Int),
        (∃ s, (wait_for_completion server run_id call_type timeout).outcome
            = PollOutcome.done s)
        ∨ (wait_for_completion server run_id call_type timeout).outcome
            = PollOutcome.timedOut run_id timeout := by
  have h1 : dictGet snap "status" "unknown" = "unknown" := by
    unfold dictGet
    rw [h]
  refine ⟨h1, by rw [h1]; decide, ?_⟩
  intro server run_id call_type timeout
  cases ho : (wait_for_completion server run_id call_type timeout).outcome with
  | done s => exact Or.inl ⟨s, rfl⟩
  | timedOut r tv =>
    have hp := wfcAux_timedOut_payload server run_id call_type timeout (numTicks timeout) 0 r tv ho
    exact Or.inr (by rw [hp.1, hp.2])

/-- Witness for C7: a snapshot holding only a `progress` field extracts to
`unknown`, which is non-terminal. -/
theorem status_default_when_absent_witness :
    dictGet [("progress", "50")] "status" "unknown" = "unknown"
    ∧ dictGet [("progress", "50")] "status" "unknown" ∉ terminalStatuses := by
  have h := status_default_when_absent [("progress", "50")] (by decide)
  exact ⟨h.1, h.2.1⟩

/-- C8: `list_test_runs` sends the same request for every value of `limit` — a
GET to `/{call_type}/test-runs` with no body — because the locally built
`params` dictionary is never passed to `_make_request`. -/
theorem list_test_runs_ignores_limit (call_type : String) (limit1 limit2 : Int) :
    list_test_runs call_type limit1 = list_test_runs call_type limit2
    ∧ (list_test_runs call_type limit1).body = none
    ∧ (list_test_runs call_type limit1).method = "GET"
    ∧ (list_test_runs call_type limit1).endpoint = "/" ++ call_type ++ "/test-runs" :=
  ⟨rfl, rfl, rfl, rfl⟩

/-- C9: for every `call_type` other than exactly `outbound` — including
`Outbound` or arbitrary strings — every status request the poller makes goes
to the inbound status endpoint. -/
theorem wfc_non_outbound_queries_inbound (server : Nat → Snapshot)
    (run_id call_type : String) (timeout : Int)
    (h : call_type ≠ "outbound") :
    ∀ e ∈ (wait_for_completion server run_id call_type timeout).requests,
      e = "/inbound/test-runs/" ++ run_id := by
  intro e he
  have h1 := wfcAux_requests_endpoint server run_id call_type timeout (numTicks timeout) 0 e he
  rw [h1]
  simp [statusEndpoint, h]

/-- Witness for C9: with the misspelled `call_type = "Outbound"`, the first
status request goes to the inbound endpoint. -/
theorem wfc_non_outbound_queries_inbound_witness :
    (wait_for_completion srvPending "run-5" "Outbound" 6).requests.headI
      = "/inbound/test-runs/" ++ "run-5" :=
  wfc_non_outbound_queries_inbound srvPending "run-5" "Outbound" 6 (by decide)
    _ (by decide)

/-- C10: for every `timeout ≤ 0`, the poller raises the `TimeoutError`
immediately, making no status request (and sleeping not at all), whatever the
remote statuses are. -/
theorem wfc_nonpositive_timeout (server : Nat → Snapshot) (run_id call_type : String)
    (timeout : Int) (h : timeout ≤ 0) :
    wait_for_completion server run_id call_type timeout
      = { outcome := PollOutcome.timedOut run_id timeout, requests := [], sleeps := [] } := by
  have h0 : numTicks timeout = 0 := by
    unfold numTicks
    omega
  unfold wait_for_completion
  rw [h0]
  rfl

/-- Witness for C10: with `timeout = 0` and a run that is already `completed`,
the poller still times out at once with zero requests. -/
theorem wfc_nonpositive_timeout_witness :
    wait_for_completion srvCompleted "run-6" "outbound" 0
      = { outcome := PollOutcome.timedOut "run-6" 0, requests := [], sleeps := [] } :=
  wfc_nonpositive_timeout srvCompleted "run-6" "outbound" 0 (by decide)
